import Mathlib

/-!
Verification of the zipboard-doc-audit gap analysis pipeline.

This file gives a shallow embedding of the canonicalization and
aggregation core of the repository: the per-article structurer
(app/processors/json_structurer.py), the inference client wrapper
(app/llm/hf_client.py), the rationale enhancement wrapper
(app/llm/gemini_client.py together with
app/processors/gap_analysis_engine.py), and the two corpus aggregators
(app/processors/gap_detector.py and
app/processors/gap_analysis_engine.py), and proves properties of the
embedded code.

Modelling conventions: Python strings are Lean strings with ASCII case
mapping and whitespace trimming; Python float division in the priority
ratio is modelled by exact rational division, with which the comparisons
against the fixed thresholds agree at the integer magnitudes involved;
the outcome of each external network call is passed in as an explicit
argument; code that can raise past its boundary returns Except.
-/

namespace ZipboardAudit

/-- Containment of one character list in another: k occurs as a
contiguous run inside s. -/
def charsContain (k : List Char) : List Char → Bool
  | [] => k.isEmpty
  | c :: rest => k.isPrefixOf (c :: rest) || charsContain k rest

/-- Python substring test, the expression k in s on strings. -/
def pyIn (k s : String) : Bool := charsContain k.toList s.toList

/-- Python str.lower with ASCII case mapping, computed on the character
list so that evaluation stays within structural recursion. -/
def pyLower (s : String) : String := String.mk (s.toList.map Char.toLower)

/-- Python str.strip: remove leading and trailing whitespace. -/
def pyStrip (s : String) : String :=
  String.mk (((s.toList.dropWhile Char.isWhitespace).reverse.dropWhile
    Char.isWhitespace).reverse)

/-- Python string slicing s[:n] by code points. -/
def pyTake (s : String) (n : ℕ) : String := String.mk (s.toList.take n)

/-- Word splitting loop behind Python str.split with no separator: runs
of whitespace separate words, leading and trailing runs produce no empty
words. acc holds the current word. -/
def wordsAux : List Char → List Char → List (List Char)
  | [], acc => if acc = [] then [] else [acc]
  | c :: rest, acc =>
    if c.isWhitespace then
      if acc = [] then wordsAux rest [] else acc :: wordsAux rest []
    else wordsAux rest (acc ++ [c])

/-- Number of whitespace separated words, the value of
len(text.split()). -/
def wordCount (text : String) : ℕ := (wordsAux text.toList []).length

/-- Replacement loop of Python str.replace for a non-empty pattern, with
fuel equal to the input length so that recursion is structural. -/
def replaceAllAux (pat rep : List Char) : ℕ → List Char → List Char
  | _, [] => []
  | 0, s => s
  | fuel + 1, c :: rest =>
    if pat.isPrefixOf (c :: rest) then
      rep ++ replaceAllAux pat rep fuel (rest.drop (pat.length - 1))
    else c :: replaceAllAux pat rep fuel rest

/-- Python s.replace(pat, rep), every occurrence, for non-empty pat. -/
def pyReplace (s pat rep : String) : String :=
  String.mk (replaceAllAux pat.toList rep.toList s.toList.length s.toList)

/-- Order preserving deduplication: keeps the first occurrence of every
element. This is the net effect of list(dict.fromkeys(l)) and also the
key iteration order of a dict or Counter built by insertion. -/
def firstSeen : List String → List String
  | [] => []
  | a :: rest => a :: (firstSeen rest).filter (fun x => x != a)

/-- Most frequent element of l, ties broken by first occurrence: the
value of Counter(l).most_common(1)[0][0]. Returns the empty string on
the empty list, which is unreachable in the pipeline because buckets are
never empty (Python would raise IndexError there). -/
def mode (l : List String) : String :=
  ((firstSeen l).foldl (fun best k =>
      match best with
      | none => some (k, l.count k)
      | some (b, c) => if c < l.count k then some (k, l.count k) else some (b, c))
    none).elim "" Prod.fst

/-- One gap occurrence: the small dict with category and severity that
the aggregators append per (article, gap) pair. -/
structure Occ where
  category : String
  severity : String
deriving DecidableEq

/-- The structured article fields read by the aggregators: category,
gap_severity and gaps_identified. JSON level handling of missing fields
and wrong types (the .get defaults and the isinstance checks) is elided
by giving the fields their intended types. -/
structure Article where
  category : String
  severity : String
  gaps : List String
deriving DecidableEq

/-- One row of the aggregated gap report. -/
structure Row where
  gap_id : String
  category : String
  gap_description : String
  priority : String
  suggested_article_title : String
  rationale : String
deriving DecidableEq

/-- Net effect of the defaultdict(list) accumulation loop over
key-occurrence pairs: keys in first insertion order, each paired with
its occurrence list in order of appearance. -/
def buildMap (ps : List (String × Occ)) : List (String × List Occ) :=
  (firstSeen (ps.map Prod.fst)).map
    (fun k => (k, (ps.filter (fun p => p.1 == k)).map Prod.snd))

/-- Number of occurrences recorded for key g in an occurrence stream. -/
def countOcc (g : String) (ps : List (String × Occ)) : ℕ :=
  (ps.filter (fun p => p.1 == g)).length

/-- Stable insertion used to model Python sorted with key len and
reverse True: x passes over every entry with a strictly larger count and
also stops before entries with an equal or smaller count, so that among
equal counts earlier entries stay first. -/
def insertByCountDesc (x : String × List Occ) :
    List (String × List Occ) → List (String × List Occ)
  | [] => [x]
  | y :: ys =>
    if y.2.length ≤ x.2.length then x :: y :: ys else y :: insertByCountDesc x ys

/-- Python sorted(items, key len of second component, reverse True):
stable descending sort by occurrence count. -/
def sortByCountDesc (l : List (String × List Occ)) : List (String × List Occ) :=
  l.foldr insertByCountDesc []

/-- Python format string GAP-NNN with zero padding to three digits. -/
def gapId (n : ℕ) : String :=
  "GAP-" ++ (if n < 10 then "00" else if n < 100 then "0" else "") ++ toString n

/-- Frequency ratio freq divided by max(total, 1), as the exact
rational mkRat freq (max total 1), which equals the division
(freq : ℚ) / (max total 1 : ℚ). -/
def ratioOf (freq total : ℕ) : ℚ := mkRat freq (max total 1)

/-- Severity exactly as the spec states it: a pure function of the raw
gap count, 0 to Low, 1 to Medium, 2 or more to High. -/
def sevOfCount (n : ℕ) : String :=
  if n = 0 then "Low" else if n = 1 then "Medium" else "High"

/-- Rank of a priority tier under the ordering Low below Medium below
High; every other string ranks with Low. -/
def priorityRank (p : String) : ℕ :=
  if p = "High" then 2 else if p = "Medium" then 1 else 0

namespace GapDetector

/-- Ordered key-to-section pairs of GAP_CANONICAL_MAP, in dict insertion
order, which Python dicts preserve during iteration. -/
def GAP_CANONICAL_MAP : List (String × String) :=
  [("access", "Missing Role & Access Requirements"),
   ("permission", "Missing Role & Access Requirements"),
   ("error", "Missing Error Handling & Failure Scenarios"),
   ("failure", "Missing Error Handling & Failure Scenarios"),
   ("limit", "Missing Limitations & Constraints"),
   ("constraint", "Missing Limitations & Constraints"),
   ("example", "Missing End-to-End Usage Examples"),
   ("workflow", "Missing End-to-End Usage Examples")]

/-- GapDetector._canonicalize_gap: lower-case the input, return the
section of the first key contained in it, and a fixed catch-all section
when no key matches. -/
def canonicalize_gap (gap : String) : String :=
  let g := pyLower gap
  match GAP_CANONICAL_MAP.find? (fun kv => pyIn kv.1 g) with
  | some kv => kv.2
  | none => "General Documentation Clarity Gaps"

/-- GapDetector._calculate_priority, thresholds 0.4 and 0.2. -/
def calculate_priority (occurrences : List Occ) (total_articles : ℕ) : String :=
  if ratioOf occurrences.length total_articles ≥ mkRat 2 5
      ∨ 3 ≤ (occurrences.map Occ.severity).count "High" then "High"
  else if ratioOf occurrences.length total_articles ≥ mkRat 1 5
      ∨ 2 ≤ (occurrences.map Occ.severity).count "Medium" then "Medium"
  else "Low"

/-- GapDetector._build_rationale: canned sentence chosen by substring
tests on the canonical section, with a frequency sentence as default.
The category argument is accepted and unused, as in the source. -/
def build_rationale (gap_desc _category : String) (freq total : ℕ) : String :=
  if pyIn "Access" gap_desc then
    "Users lack clarity on role boundaries and permissions, leading to confusion for non-admin users and increased dependency on account owners for basic actions."
  else if pyIn "Error Handling" gap_desc then
    "Without documented failure scenarios and recovery steps, users cannot self-diagnose issues, resulting in higher support load and integration drop-offs."
  else if pyIn "Limitations" gap_desc then
    "Missing constraints and usage boundaries can lead to incorrect assumptions, misconfiguration, and unexpected system behavior."
  else if pyIn "Examples" gap_desc then
    "The absence of end-to-end examples makes it difficult for users to translate features into real-world workflows, slowing onboarding and adoption."
  else
    "This gap appears in " ++ toString freq ++ " of " ++ toString total ++
      " articles, indicating a systemic documentation weakness impacting user self-service."

/-- Occurrence stream of detect_gaps: canonical section with category
and severity per (article, gap) pair, in loop order. -/
def detectorOccs (articles : List Article) : List (String × Occ) :=
  articles.flatMap (fun a =>
    a.gaps.map (fun g => (canonicalize_gap g, Occ.mk a.category a.severity)))

/-- Row construction loop of detect_gaps starting at index idx. -/
def detectorRows (total : ℕ) : ℕ → List (String × List Occ) → List Row
  | _, [] => []
  | idx, (gap_desc, occurrences) :: rest =>
    { gap_id := gapId idx
      category := mode (occurrences.map Occ.category)
      gap_description := gap_desc
      priority := calculate_priority occurrences total
      suggested_article_title := gap_desc
      rationale := build_rationale gap_desc (mode (occurrences.map Occ.category))
          occurrences.length total } ::
    detectorRows total (idx + 1) rest

/-- GapDetector.detect_gaps on an already loaded corpus: bucket by
canonical section, sort by descending count, truncate to top_n. There is
no systemic threshold filter in this variant. -/
def detect_gaps (articles : List Article) (top_n : ℕ) : List Row :=
  if articles = [] then []
  else detectorRows articles.length 1
    ((sortByCountDesc (buildMap (detectorOccs articles))).take top_n)

end GapDetector

/-- Python str.capitalize: first character upper-cased, the rest
lower-cased (ASCII case mapping). -/
def pyCapitalize (s : String) : String :=
  match s.toList with
  | [] => ""
  | c :: rest => String.mk (c.toUpper :: rest.map Char.toLower)

namespace GapAnalysisEngine

/-- GapAnalysisEngine._calculate_priority, thresholds 0.5 and 0.25. -/
def calculate_priority (occurrences : List Occ) (total : ℕ) : String :=
  if ratioOf occurrences.length total ≥ mkRat 1 2
      ∨ 3 ≤ (occurrences.map Occ.severity).count "High" then "High"
  else if ratioOf occurrences.length total ≥ mkRat 1 4
      ∨ 2 ≤ (occurrences.map Occ.severity).count "Medium" then "Medium"
  else "Low"

/-- GapAnalysisEngine._suggest_title: drop every occurrence of the word
missing, strip, capitalize, and prefix with Guide. -/
def suggest_title (gap : String) : String :=
  "Guide: " ++ pyCapitalize (pyStrip (pyReplace gap "missing" ""))

/-- GapAnalysisEngine._baseline_rationale: deterministic sentence per
category with a general default; the gap argument is unused, as in the
source. -/
def baseline_rationale (category _gap : String) : String :=
  if category = "API" then
    "Users need clear API documentation to build and maintain custom integrations."
  else if category = "Integrations" then
    "Users lack clarity during integration setup, increasing failures and support dependency."
  else if category = "Roles & Permissions" then
    "Users cannot clearly understand access boundaries, causing confusion for non-admin users."
  else if category = "Troubleshooting" then
    "Without failure scenarios, users cannot self-diagnose issues effectively."
  else
    "Users lack critical guidance, reducing successful onboarding and self-service."

/-- GapAnalysisEngine._generate_rationale. geminiResult is the string
returned by GeminiClient._run for this call: the generated text on
success, and the empty string when the underlying call raised, since
_run catches every exception and returns the empty string. An empty
result raises ValueError inside the try block, a stripped result shorter
than 15 or longer than 160 characters raises ValueError as well, and
every raise is caught and replaced by the deterministic baseline. The
priority argument is accepted and unused, as in the source. -/
def generate_rationale (geminiResult category gap _priority : String) : String :=
  if geminiResult = "" then baseline_rationale category gap
  else
    let cleaned := pyStrip geminiResult
    if cleaned.length < 15 ∨ 160 < cleaned.length then baseline_rationale category gap
    else cleaned

/-- Normalized occurrence stream of run: strip and lower-case each gap
string, skip empty results, record category and severity. -/
def engineOccs (articles : List Article) : List (String × Occ) :=
  articles.flatMap (fun a =>
    (a.gaps.map (fun g => (pyLower (pyStrip g), Occ.mk a.category a.severity))).filter
      (fun p => p.1 != ""))

/-- The gap_map dictionary of run. -/
def gap_map (articles : List Article) : List (String × List Occ) :=
  buildMap (engineOccs articles)

/-- Buckets retained by the systemic filter of run: at least two
occurrences. -/
def systemic_gaps (articles : List Article) : List (String × List Occ) :=
  (gap_map articles).filter (fun b => 2 ≤ b.2.length)

/-- Row construction loop of run starting at index idx. env idx is the
text returned by the generative call made while building the row at
index idx, empty when that call failed. -/
def engineRows (env : ℕ → String) (total : ℕ) : ℕ → List (String × List Occ) → List Row
  | _, [] => []
  | idx, (gap, occurrences) :: rest =>
    { gap_id := gapId idx
      category := mode (occurrences.map Occ.category)
      gap_description := gap
      priority := calculate_priority occurrences total
      suggested_article_title := suggest_title gap
      rationale := generate_rationale (env idx) (mode (occurrences.map Occ.category)) gap
          (calculate_priority occurrences total) } ::
    engineRows env total (idx + 1) rest

/-- GapAnalysisEngine.run on an already loaded corpus. The three early
returns that print a warning and write no rows are modelled as the empty
report. -/
def run (env : ℕ → String) (articles : List Article) (top_n : ℕ) : List Row :=
  if articles = [] then []
  else if gap_map articles = [] then []
  else if systemic_gaps articles = [] then []
  else engineRows env articles.length 1
    ((sortByCountDesc (systemic_gaps articles)).take top_n)

end GapAnalysisEngine

/-- Raised Python exception kinds relevant to the embedded code. -/
inductive PyError where
  | attributeError
deriving DecidableEq

/-- Shape of the value returned by the zero-shot classification call, as
the client code distinguishes it: a dict carrying labels and scores, a
list whose first element is such a dict, an empty list, a non-empty list
whose first element is not a dict, or any non-list non-dict value such
as a plain string or a dataclass. Dict payloads are modelled well-typed;
the last two shapes are the malformed ones on which the attribute lookup
of get raises. -/
inductive PyVal where
  | dict (labels : List String) (scores : List ℚ)
  | listOfDict (labels : List String) (scores : List ℚ)
  | emptyList
  | listOfOther
  | other
deriving DecidableEq

namespace HFClient

/-- Selection loop over zipped label-score pairs in detect_topics: keep
labels at or above the threshold that are not already kept, and stop as
soon as the kept list reaches max_topics. -/
def pickTopics (threshold : ℚ) (max_topics : ℕ) :
    List (String × ℚ) → List String → List String
  | [], acc => acc
  | (label, score) :: rest, acc =>
    let acc2 := if threshold ≤ score ∧ label ∉ acc then acc ++ [label] else acc
    if acc2.length = max_topics then acc2 else pickTopics threshold max_topics rest acc2

/-- HFClient.detect_topics. outcome is the result of the network call:
error when the call raised (which the code catches, returning the empty
list) and ok with the returned value otherwise. After the guarded call,
a list result is replaced by its first element or an empty dict; the
subsequent attribute lookup of get is outside the try block and raises
AttributeError on any non-dict value, which propagates. -/
def detect_topics (outcome : Except Unit PyVal) (text : String)
    (allowed_topics : List String) (threshold : ℚ) (max_topics : ℕ) :
    Except PyError (List String) :=
  if text = "" ∨ allowed_topics = [] then .ok []
  else
    match outcome with
    | .error _ => .ok []
    | .ok v =>
      match (match v with
             | .dict labels scores => some (labels, scores)
             | .listOfDict labels scores => some (labels, scores)
             | .emptyList => some ([], [])
             | .listOfOther => none
             | .other => none) with
      | none => .error .attributeError
      | some (labels, scores) =>
        let topics := pickTopics threshold max_topics (labels.zip scores) []
        .ok (match topics, labels with
             | [], l0 :: _ => [l0]
             | ts, _ => ts)

end HFClient

/-- Raw scraped article record consumed by the structurer. -/
structure RawArticle where
  article_id : String
  title : String
  url : String
  raw_text : String
  has_images : Bool
deriving DecidableEq

/-- Full structured article record produced by the structurer. -/
structure StructuredArticle where
  article_id : String
  article_title : String
  category : String
  section_label : String
  url : String
  content_type : String
  approx_word_count : ℕ
  has_screenshots : Bool
  topics_covered : List String
  gaps_identified : List String
  target_user_role : String
  onboarding_stage : String
  gap_severity : String
  automation_opportunity : String
  category_risk_level : String
deriving DecidableEq

namespace ArticleJSONStructurer

/-- The fixed allowed topic vocabulary of the structurer. -/
def TOPICS : List String :=
  ["onboarding", "roles and permissions", "collaboration", "projects",
   "integrations", "api", "troubleshooting", "billing", "security"]

/-- The fixed keyword list of _extract_specific_topics. -/
def KEYWORDS : List String :=
  ["manager", "collaborator", "client", "project", "organization", "permission",
   "role", "api", "token", "integration", "jira", "webhook", "review", "task"]

/-- ArticleJSONStructurer._canonicalize_gap: lower-case and strip, then
first-match-wins over the ordered rules examples, error handling, roles
and access, limitations; an input matching no rule is returned itself. -/
def canonicalize_gap (gap : String) : String :=
  let g := pyStrip (pyLower gap)
  if ["example", "workflow", "use case"].any (fun k => pyIn k g) then
    "missing practical examples or end-to-end user workflows"
  else if ["error", "fail", "failure", "troubleshoot"].any (fun k => pyIn k g) then
    "missing guidance on error scenarios and failure handling"
  else if ["role", "permission", "access"].any (fun k => pyIn k g) then
    "missing explanation of roles, permissions, and access levels"
  else if ["limit", "constraint", "restriction", "boundary"].any (fun k => pyIn k g) then
    "missing documented limitations and usage constraints"
  else g

/-- Every keyword tested by the structurer canonicalizer, in rule
order. -/
def STRUCT_KEYWORDS : List String :=
  ["example", "workflow", "use case", "error", "fail", "failure", "troubleshoot",
   "role", "permission", "access", "limit", "constraint", "restriction", "boundary"]

/-- ArticleJSONStructurer._infer_category_heuristic. -/
def infer_category_heuristic (title text : String) : String :=
  let t := pyLower (title ++ " " ++ text)
  if pyIn "api" t then "API"
  else if pyIn "integration" t then "Integrations"
  else if ["role", "manager", "collaborator", "client"].any (fun k => pyIn k t) then
    "Roles & Permissions"
  else if pyIn "project" t || pyIn "phase" t then "Projects & Phases"
  else if pyIn "error" t || pyIn "issue" t then "Troubleshooting"
  else if pyIn "account" t || pyIn "billing" t then "Account & Management"
  else "General"

/-- ArticleJSONStructurer._infer_content_type_heuristic. -/
def infer_content_type_heuristic (text : String) : String :=
  let t := pyLower text
  if pyIn "step" t || pyIn "follow these" t || pyIn "how to" t then "How-to"
  else if pyIn "faq" t then "FAQ"
  else if pyIn "error" t || pyIn "issue" t then "Troubleshooting"
  else if pyIn "reference" t then "Reference"
  else "Guide"

/-- ArticleJSONStructurer._infer_semantic_gaps: rule based checks keyed
by category and content type, each failing check appending a canned
phrase, truncated to max_gaps. -/
def infer_semantic_gaps (text category content_type : String) (max_gaps : ℕ) :
    List String :=
  let t := pyLower text
  let g1 :=
    if ["Roles & Permissions", "Integrations", "API"].contains category
        && !(["role", "permission", "access"].any (fun k => pyIn k t)) then
      ["does not clearly explain required roles, permissions, or access levels"]
    else []
  let g2 :=
    if ["Integrations", "API", "Troubleshooting"].contains category
        && !(["error", "fail", "issue", "troubleshoot"].any (fun k => pyIn k t)) then
      ["missing guidance on error scenarios and failure handling"]
    else []
  let g3 :=
    if ["API", "Integrations"].contains category
        && !(["limit", "only", "cannot", "restriction"].any (fun k => pyIn k t)) then
      ["no documented limitations, constraints, or usage boundaries"]
    else []
  let g4 :=
    if ["How-to", "Guide"].contains content_type
        && !(["example", "workflow", "use case"].any (fun k => pyIn k t)) then
      ["lacks practical examples or end-to-end user workflows"]
    else []
  (g1 ++ g2 ++ g3 ++ g4).take max_gaps

/-- ArticleJSONStructurer._extract_specific_topics. -/
def extract_specific_topics (text : String) (max_items : ℕ) : List String :=
  let t := pyLower text
  (firstSeen (KEYWORDS.filter (fun k => pyIn k t))).take max_items

/-- ArticleJSONStructurer._infer_topics: external zero-shot topics
merged with the keyword scan, deduplicated preserving order, capped at
5, with a fixed default when empty. Propagates any error of
detect_topics. -/
def infer_topics (outcome : Except Unit PyVal) (text : String) :
    Except PyError (List String) := do
  let primary ← HFClient.detect_topics outcome text TOPICS (mkRat 25 100) 3
  let specific := extract_specific_topics text 5
  let topics := firstSeen (primary ++ specific)
  return if topics = [] then ["onboarding"] else topics.take 5

/-- Lines 47 to 50 of the structurer: canonicalize every raw gap and
deduplicate preserving order. -/
def structured_gaps (raw_gaps : List String) : List String :=
  firstSeen (raw_gaps.map canonicalize_gap)

/-- Lines 53 to 58 of the structurer: severity from the canonicalized,
deduplicated gap list. -/
def gap_severity_of (gaps : List String) : String :=
  if 2 ≤ gaps.length then "High" else if ¬ gaps = [] then "Medium" else "Low"

/-- ArticleJSONStructurer.structure_article. outcome is the result of
the zero-shot classification network call made inside _infer_topics;
every other step is deterministic. An exception escaping detect_topics
propagates out of this function as well, since the structurer installs
no handler; the match on infer_topics models exactly that propagation. -/
def structure_article (outcome : Except Unit PyVal) (article : RawArticle) :
    Except PyError StructuredArticle :=
  let text := pyTake article.raw_text 3000
  let title := article.title
  let category := infer_category_heuristic title text
  let content_type := infer_content_type_heuristic text
  match infer_topics outcome text with
  | .error e => .error e
  | .ok topics =>
  let raw_gaps := infer_semantic_gaps text category content_type 3
  let gaps := structured_gaps raw_gaps
  let severity := gap_severity_of gaps
  .ok {
    article_id := article.article_id
    article_title := title
    category := category
    section_label := "Knowledge Base"
    url := article.url
    content_type := content_type
    approx_word_count := wordCount text
    has_screenshots := article.has_images
    topics_covered := topics
    gaps_identified := gaps
    target_user_role := "Mixed"
    onboarding_stage := "First-time setup"
    gap_severity := severity
    automation_opportunity := if ¬ gaps = [] then "Yes" else "No"
    category_risk_level := severity }

end ArticleJSONStructurer

/-- Corpus of a single article whose one gap canonicalizes to the role
and access section: exhibits the missing systemic threshold of the
detector. -/
def corpusSingletonRole : List Article :=
  [{ category := "General", severity := "Medium", gaps := ["access setup unclear"] }]

/-- Corpus of a single article with one error-handling gap. -/
def corpusSingletonFailure : List Article :=
  [{ category := "API", severity := "High", gaps := ["no failure guidance"] }]

/-- Corpus of two articles that share one normalized gap string once
each. -/
def corpusTwoRole : List Article :=
  [{ category := "API", severity := "High", gaps := ["roles gap"] },
   { category := "API", severity := "High", gaps := ["roles gap"] }]

/-- Corpus of two articles sharing the canonical role gap label, as the
structurer emits it. -/
def corpusCanonicalRole : List Article :=
  [{ category := "Roles & Permissions", severity := "High",
     gaps := ["missing explanation of roles, permissions, and access levels"] },
   { category := "Roles & Permissions", severity := "High",
     gaps := ["missing explanation of roles, permissions, and access levels"] }]

/-- Generative outcome where every call succeeds with a fixed sentence
that passes validation. -/
def envOk : ℕ → String := fun _ => "Users struggle to find role guidance fast."

/-- Generative outcome where every call fails. -/
def envFail : ℕ → String := fun _ => ""

/-- Small raw article for concrete evaluation of the structurer. -/
def rawShortGuide : RawArticle :=
  { article_id := "a1", title := "API tokens", url := "u",
    raw_text := "short guide", has_images := false }

/-- Raw article used to feed the malformed classification response into
the structurer. -/
def rawAboutThings : RawArticle :=
  { article_id := "a2", title := "API guide", url := "u",
    raw_text := "text about things", has_images := false }

/-- The structured record produced from rawShortGuide when the zero-shot
call raises and is caught. -/
def structuredShortGuide : StructuredArticle :=
  { article_id := "a1", article_title := "API tokens", category := "API",
    section_label := "Knowledge Base", url := "u", content_type := "Guide",
    approx_word_count := 2, has_screenshots := false,
    topics_covered := ["onboarding"],
    gaps_identified :=
      ["missing explanation of roles, permissions, and access levels",
       "missing guidance on error scenarios and failure handling",
       "missing documented limitations and usage constraints"],
    target_user_role := "Mixed", onboarding_stage := "First-time setup",
    gap_severity := "High", automation_opportunity := "Yes",
    category_risk_level := "High" }

/-- Boolean equality test on Except values, used to give concrete
evaluations of the fallible structurer a computing Decidable instance. -/
def exceptBeq {ε α : Type} [DecidableEq ε] [DecidableEq α] :
    Except ε α → Except ε α → Bool
  | .error a, .error b => a = b
  | .ok a, .ok b => a = b
  | _, _ => false

instance {ε α : Type} [DecidableEq ε] [DecidableEq α] : DecidableEq (Except ε α) :=
  fun a b =>
    decidable_of_iff (exceptBeq a b = true) (by cases a <;> cases b <;> simp [exceptBeq])

/-! Helper lemmas about the aggregation building blocks. -/

theorem mem_firstSeen {a : String} {l : List String} : a ∈ firstSeen l ↔ a ∈ l := by
  induction l with
  | nil => simp [firstSeen]
  | cons b rest ih =>
    simp only [firstSeen, List.mem_cons, List.mem_filter, bne_iff_ne, ne_eq, ih]
    by_cases hab : a = b
    · simp [hab]
    · simp [hab]

theorem mem_insertByCountDesc {x y : String × List Occ} {l : List (String × List Occ)} :
    x ∈ insertByCountDesc y l ↔ x = y ∨ x ∈ l := by
  induction l with
  | nil => simp [insertByCountDesc]
  | cons b rest ih =>
    unfold insertByCountDesc
    split_ifs
    · simp [List.mem_cons]
    · simp only [List.mem_cons, ih]
      tauto

theorem mem_sortByCountDesc {x : String × List Occ} {l : List (String × List Occ)} :
    x ∈ sortByCountDesc l ↔ x ∈ l := by
  induction l with
  | nil => simp [sortByCountDesc]
  | cons b rest ih =>
    simp only [sortByCountDesc, List.foldr_cons, mem_insertByCountDesc, List.mem_cons]
    rw [show rest.foldr insertByCountDesc [] = sortByCountDesc rest from rfl, ih]

theorem length_insertByCountDesc (y : String × List Occ) :
    ∀ l : List (String × List Occ), (insertByCountDesc y l).length = l.length + 1 := by
  intro l
  induction l with
  | nil => rfl
  | cons b rest ih =>
    unfold insertByCountDesc
    split_ifs
    · rfl
    · simp [ih]

theorem length_sortByCountDesc (l : List (String × List Occ)) :
    (sortByCountDesc l).length = l.length := by
  induction l with
  | nil => rfl
  | cons b rest ih =>
    simp only [sortByCountDesc, List.foldr_cons]
    rw [length_insertByCountDesc,
      show rest.foldr insertByCountDesc [] = sortByCountDesc rest from rfl, ih,
      List.length_cons]

theorem mem_buildMap {g : String} {os : List Occ} {ps : List (String × Occ)} :
    (g, os) ∈ buildMap ps ↔
      g ∈ ps.map Prod.fst ∧ os = (ps.filter (fun p => p.1 == g)).map Prod.snd := by
  unfold buildMap
  rw [List.mem_map]
  constructor
  · rintro ⟨k, hk, he⟩
    rw [Prod.mk.injEq] at he
    obtain ⟨rfl, h2⟩ := he
    exact ⟨mem_firstSeen.mp hk, h2.symm⟩
  · rintro ⟨hg, rfl⟩
    exact ⟨g, mem_firstSeen.mpr hg, rfl⟩

theorem countOcc_pos_mem {g : String} {ps : List (String × Occ)}
    (h : 1 ≤ countOcc g ps) : g ∈ ps.map Prod.fst := by
  unfold countOcc at h
  obtain ⟨p, hp⟩ := List.exists_mem_of_length_pos h
  obtain ⟨hmem, heq⟩ := List.mem_filter.mp hp
  have hpg : p.1 = g := by simpa using heq
  exact hpg ▸ List.mem_map_of_mem Prod.fst hmem

theorem engineRows_map_desc (env : ℕ → String) (total : ℕ) :
    ∀ (i : ℕ) (l : List (String × List Occ)),
      (GapAnalysisEngine.engineRows env total i l).map Row.gap_description = l.map Prod.fst := by
  intro i l
  induction l generalizing i with
  | nil => rfl
  | cons b rest ih =>
    cases b with
    | mk gap occs => simp [GapAnalysisEngine.engineRows, ih]

theorem engineRows_length (env : ℕ → String) (total : ℕ) :
    ∀ (i : ℕ) (l : List (String × List Occ)),
      (GapAnalysisEngine.engineRows env total i l).length = l.length := by
  intro i l
  induction l generalizing i with
  | nil => rfl
  | cons b rest ih =>
    cases b with
    | mk gap occs => simp [GapAnalysisEngine.engineRows, ih]

theorem engineRows_env_congr (env1 env2 : ℕ → String) (total : ℕ)
    (h : ∀ i, env1 i = env2 i) :
    ∀ (i : ℕ) (l : List (String × List Occ)),
      GapAnalysisEngine.engineRows env1 total i l =
      GapAnalysisEngine.engineRows env2 total i l := by
  intro i l
  induction l generalizing i with
  | nil => rfl
  | cons b rest ih =>
    cases b with
    | mk gap occs => simp [GapAnalysisEngine.engineRows, h, ih]

theorem detectorRows_length (total : ℕ) :
    ∀ (i : ℕ) (l : List (String × List Occ)),
      (GapDetector.detectorRows total i l).length = l.length := by
  intro i l
  induction l generalizing i with
  | nil => rfl
  | cons b rest ih =>
    cases b with
    | mk gap occs => simp [GapDetector.detectorRows, ih]

theorem baseline_rationale_bounds (category gap : String) :
    ¬ GapAnalysisEngine.baseline_rationale category gap = "" ∧
    15 ≤ (GapAnalysisEngine.baseline_rationale category gap).length ∧
    (GapAnalysisEngine.baseline_rationale category gap).length ≤ 160 := by
  unfold GapAnalysisEngine.baseline_rationale
  split_ifs <;> exact ⟨by decide, by decide, by decide⟩

theorem severity_eq_sevOfCount (text category content_type : String) :
    ArticleJSONStructurer.gap_severity_of
      (ArticleJSONStructurer.structured_gaps
        (ArticleJSONStructurer.infer_semantic_gaps text category content_type 3)) =
    sevOfCount (ArticleJSONStructurer.infer_semantic_gaps text category content_type 3).length := by
  simp only [ArticleJSONStructurer.infer_semantic_gaps]
  split_ifs <;> decide

theorem canonicalize_gap_unmatched (p : String)
    (h : ∀ k ∈ ArticleJSONStructurer.STRUCT_KEYWORDS, pyIn k (pyStrip (pyLower p)) = false) :
    ArticleJSONStructurer.canonicalize_gap p = pyStrip (pyLower p) := by
  have hof : ∀ l : List String, (∀ k ∈ l, k ∈ ArticleJSONStructurer.STRUCT_KEYWORDS) →
      (l.any fun k => pyIn k (pyStrip (pyLower p))) = false := by
    intro l hl
    simp only [List.any_eq_false]
    intro k hk
    simp [h k (hl k hk)]
  simp [ArticleJSONStructurer.canonicalize_gap,
    hof ["example", "workflow", "use case"] (by decide),
    hof ["error", "fail", "failure", "troubleshoot"] (by decide),
    hof ["role", "permission", "access"] (by decide),
    hof ["limit", "constraint", "restriction", "boundary"] (by decide)]

/-! Theorems settling the claims. -/

/-- C1 counterexample: in GapDetector.detect_gaps there is no systemic
threshold, so a canonical gap occurring in exactly one article of the
corpus appears in the aggregated report, contradicting the claim that
such a gap never appears. -/
theorem c1_counterexample :
    (GapDetector.detect_gaps corpusSingletonRole 5).map Row.gap_description =
      ["Missing Role & Access Requirements"] := by decide

/-- C1 amended: in GapAnalysisEngine.run a normalized gap appears in
the report only when it has at least 2 occurrences across the corpus,
and every gap with at least 2 occurrences appears whenever top_n is at
least the number of systemic buckets; GapDetector.detect_gaps applies no
such threshold. -/
theorem c1_systemic_threshold :
    (∀ (env : ℕ → String) (articles : List Article) (top_n : ℕ) (g : String),
        g ∈ (GapAnalysisEngine.run env articles top_n).map Row.gap_description →
        2 ≤ countOcc g (GapAnalysisEngine.engineOccs articles)) ∧
    (∀ (env : ℕ → String) (articles : List Article) (top_n : ℕ) (g : String),
        2 ≤ countOcc g (GapAnalysisEngine.engineOccs articles) →
        (GapAnalysisEngine.systemic_gaps articles).length ≤ top_n →
        g ∈ (GapAnalysisEngine.run env articles top_n).map Row.gap_description) := by
  constructor
  · intro env articles top_n g hg
    unfold GapAnalysisEngine.run at hg
    split_ifs at hg with h1 h2 h3
    · simp at hg
    · simp at hg
    · simp at hg
    · rw [engineRows_map_desc] at hg
      obtain ⟨b, hbmem, hbfst⟩ := List.mem_map.mp hg
      have hbsys : b ∈ GapAnalysisEngine.systemic_gaps articles :=
        mem_sortByCountDesc.mp (List.mem_of_mem_take hbmem)
      obtain ⟨hbgm, hblen⟩ := List.mem_filter.mp hbsys
      have hblen2 : 2 ≤ b.2.length := by simpa using hblen
      have hb : (b.1, b.2) ∈ buildMap (GapAnalysisEngine.engineOccs articles) := hbgm
      obtain ⟨hkeys, hos⟩ := mem_buildMap.mp hb
      subst hbfst
      unfold countOcc
      calc 2 ≤ b.2.length := hblen2
        _ = _ := by rw [hos, List.length_map]
  · intro env articles top_n g hcount htop
    have hkey : g ∈ (GapAnalysisEngine.engineOccs articles).map Prod.fst :=
      countOcc_pos_mem (le_trans one_le_two hcount)
    have hbm : (g, ((GapAnalysisEngine.engineOccs articles).filter
        (fun p => p.1 == g)).map Prod.snd) ∈
        buildMap (GapAnalysisEngine.engineOccs articles) :=
      mem_buildMap.mpr ⟨hkey, rfl⟩
    have hlenos : 2 ≤ (((GapAnalysisEngine.engineOccs articles).filter
        (fun p => p.1 == g)).map Prod.snd).length := by
      rw [List.length_map]; exact hcount
    have hsys : (g, ((GapAnalysisEngine.engineOccs articles).filter
        (fun p => p.1 == g)).map Prod.snd) ∈ GapAnalysisEngine.systemic_gaps articles :=
      List.mem_filter.mpr ⟨hbm, by simpa using hlenos⟩
    have hartne : ¬ articles = [] := by
      intro he
      subst he
      simp [GapAnalysisEngine.engineOccs, countOcc] at hcount
    have hgm_ne : ¬ GapAnalysisEngine.gap_map articles = [] := List.ne_nil_of_mem hbm
    have hsys_ne : ¬ GapAnalysisEngine.systemic_gaps articles = [] :=
      List.ne_nil_of_mem hsys
    unfold GapAnalysisEngine.run
    rw [if_neg hartne, if_neg hgm_ne, if_neg hsys_ne, engineRows_map_desc]
    have hlen_sorted : (sortByCountDesc (GapAnalysisEngine.systemic_gaps articles)).length ≤ top_n := by
      rw [length_sortByCountDesc]; exact htop
    rw [List.take_of_length_le hlen_sorted]
    exact List.mem_map_of_mem Prod.fst (mem_sortByCountDesc.mpr hsys)

/-- C1 witness: on a two article corpus sharing one gap, the gap has 2
occurrences and appears in the engine report; both directions of the
amended claim applied at that corpus. -/
theorem c1_witness :
    2 ≤ countOcc "roles gap" (GapAnalysisEngine.engineOccs corpusTwoRole) ∧
    "roles gap" ∈ (GapAnalysisEngine.run envFail corpusTwoRole 5).map Row.gap_description :=
  ⟨c1_systemic_threshold.1 envFail corpusTwoRole 5 "roles gap" (by decide),
   c1_systemic_threshold.2 envFail corpusTwoRole 5 "roles gap" (by decide) (by decide)⟩

/-- C2 counterexample: in the per-article structurer the error handling
rule is tested before the role and access rule, so an input containing
keywords of both rules resolves to the error handling label, not to the
role and access label as the claim asserts. -/
theorem c2_counterexample :
    ArticleJSONStructurer.canonicalize_gap "access error" =
      "missing guidance on error scenarios and failure handling" ∧
    ¬ ArticleJSONStructurer.canonicalize_gap "access error" =
      "missing explanation of roles, permissions, and access levels" := by decide

/-- C2 amended: both canonicalizers are total first-match-wins functions
over their ordered rule lists, but the orders differ: GapDetector tests
the access and permission keywords first and falls back to a fixed
catch-all section, while the structurer tests examples first, then error
keywords, then role and access, then limitations, and returns the
lower-cased stripped input itself when nothing matches. -/
theorem c2_canonicalization_order :
    (∀ gap, pyIn "access" (pyLower gap) = true →
      GapDetector.canonicalize_gap gap = "Missing Role & Access Requirements") ∧
    (∀ gap, (∀ kv ∈ GapDetector.GAP_CANONICAL_MAP, pyIn kv.1 (pyLower gap) = false) →
      GapDetector.canonicalize_gap gap = "General Documentation Clarity Gaps") ∧
    (∀ gap, pyIn "error" (pyStrip (pyLower gap)) = true →
      (∀ k ∈ ["example", "workflow", "use case"], pyIn k (pyStrip (pyLower gap)) = false) →
      ArticleJSONStructurer.canonicalize_gap gap =
        "missing guidance on error scenarios and failure handling") ∧
    (∀ gap, (∀ k ∈ ArticleJSONStructurer.STRUCT_KEYWORDS,
        pyIn k (pyStrip (pyLower gap)) = false) →
      ArticleJSONStructurer.canonicalize_gap gap = pyStrip (pyLower gap)) := by
  refine ⟨?_, ?_, ?_, ?_⟩
  · intro gap h
    simp [GapDetector.canonicalize_gap, GapDetector.GAP_CANONICAL_MAP, List.find?, h]
  · intro gap h
    have hnone : GapDetector.GAP_CANONICAL_MAP.find?
        (fun kv => pyIn kv.1 (pyLower gap)) = none := by
      rw [List.find?_eq_none]
      intro kv hkv
      simp [h kv hkv]
    simp [GapDetector.canonicalize_gap, hnone]
  · intro gap herr hex
    have h1 : (["example", "workflow", "use case"].any
        fun k => pyIn k (pyStrip (pyLower gap))) = false := by
      simp only [List.any_eq_false]
      intro k hk
      simp [hex k hk]
    have h2 : (["error", "fail", "failure", "troubleshoot"].any
        fun k => pyIn k (pyStrip (pyLower gap))) = true := by
      simp only [List.any_eq_true]
      exact ⟨"error", by simp, herr⟩
    simp [ArticleJSONStructurer.canonicalize_gap, h1, h2]
  · exact fun gap h => canonicalize_gap_unmatched gap h

/-- C2 witness: the four parts of the amended claim applied at concrete
inputs. -/
theorem c2_witness :
    GapDetector.canonicalize_gap "Access error" = "Missing Role & Access Requirements" ∧
    GapDetector.canonicalize_gap "nothing relevant" = "General Documentation Clarity Gaps" ∧
    ArticleJSONStructurer.canonicalize_gap "error with access" =
      "missing guidance on error scenarios and failure handling" ∧
    ArticleJSONStructurer.canonicalize_gap "outdated screenshots" = "outdated screenshots" :=
  ⟨c2_canonicalization_order.1 "Access error" (by decide),
   c2_canonicalization_order.2.1 "nothing relevant" (by decide),
   c2_canonicalization_order.2.2.1 "error with access" (by decide) (by decide),
   c2_canonicalization_order.2.2.2 "outdated screenshots" (by decide)⟩

/-- C3: severity of every successfully structured article is the pure
function of the raw gap count, 0 to Low, 1 to Medium, 2 or more to
High; the canonicalization and deduplication between gap detection and
severity derivation never change the count because the four canned raw
phrases map to four distinct canonical labels. -/
theorem c3_severity_pure (outcome : Except Unit PyVal) (article : RawArticle)
    (s : StructuredArticle)
    (h : ArticleJSONStructurer.structure_article outcome article = Except.ok s) :
    s.gap_severity = sevOfCount
      (ArticleJSONStructurer.infer_semantic_gaps (pyTake article.raw_text 3000)
        (ArticleJSONStructurer.infer_category_heuristic article.title
          (pyTake article.raw_text 3000))
        (ArticleJSONStructurer.infer_content_type_heuristic
          (pyTake article.raw_text 3000)) 3).length := by
  simp only [ArticleJSONStructurer.structure_article] at h
  cases htop : ArticleJSONStructurer.infer_topics outcome (pyTake article.raw_text 3000) with
  | error e =>
    rw [htop] at h
    exact absurd h (by simp)
  | ok tps =>
    rw [htop] at h
    simp only [Except.ok.injEq] at h
    subst h
    simpa using severity_eq_sevOfCount (pyTake article.raw_text 3000)
      (ArticleJSONStructurer.infer_category_heuristic article.title
        (pyTake article.raw_text 3000))
      (ArticleJSONStructurer.infer_content_type_heuristic (pyTake article.raw_text 3000))

/-- C3 witness: the claim applied to a concrete raw article whose
classification call raised; three raw gaps are detected, so severity is
High. -/
theorem c3_witness : structuredShortGuide.gap_severity = "High" :=
  c3_severity_pure (Except.error ()) rawShortGuide structuredShortGuide (by decide)

/-- C4 counterexample: GapAnalysisEngine._calculate_priority uses
thresholds 0.5 and 0.25, so a bucket whose occurrence ratio is exactly
0.4 with no severity support is Medium there, while the claim, with its
0.4 threshold, says High. -/
theorem c4_counterexample :
    ratioOf 2 5 ≥ mkRat 2 5 ∧
    GapAnalysisEngine.calculate_priority
      [{ category := "General", severity := "Low" },
       { category := "General", severity := "Low" }] 5 = "Medium" := by decide

/-- C4 amended: GapDetector._calculate_priority implements exactly the
claimed formula with thresholds two fifths and one fifth, while
GapAnalysisEngine._calculate_priority implements the same shape with
thresholds one half and one quarter; each output value is characterized
by its conditions. -/
theorem c4_priority_formulas (occurrences : List Occ) (total : ℕ) :
    (GapDetector.calculate_priority occurrences total = "High" ↔
      ratioOf occurrences.length total ≥ mkRat 2 5 ∨
        3 ≤ (occurrences.map Occ.severity).count "High") ∧
    (GapDetector.calculate_priority occurrences total = "Medium" ↔
      ¬(ratioOf occurrences.length total ≥ mkRat 2 5 ∨
          3 ≤ (occurrences.map Occ.severity).count "High") ∧
        (ratioOf occurrences.length total ≥ mkRat 1 5 ∨
          2 ≤ (occurrences.map Occ.severity).count "Medium")) ∧
    (GapDetector.calculate_priority occurrences total = "Low" ↔
      ¬(ratioOf occurrences.length total ≥ mkRat 2 5 ∨
          3 ≤ (occurrences.map Occ.severity).count "High") ∧
        ¬(ratioOf occurrences.length total ≥ mkRat 1 5 ∨
          2 ≤ (occurrences.map Occ.severity).count "Medium")) ∧
    (GapAnalysisEngine.calculate_priority occurrences total = "High" ↔
      ratioOf occurrences.length total ≥ mkRat 1 2 ∨
        3 ≤ (occurrences.map Occ.severity).count "High") ∧
    (GapAnalysisEngine.calculate_priority occurrences total = "Medium" ↔
      ¬(ratioOf occurrences.length total ≥ mkRat 1 2 ∨
          3 ≤ (occurrences.map Occ.severity).count "High") ∧
        (ratioOf occurrences.length total ≥ mkRat 1 4 ∨
          2 ≤ (occurrences.map Occ.severity).count "Medium")) ∧
    (GapAnalysisEngine.calculate_priority occurrences total = "Low" ↔
      ¬(ratioOf occurrences.length total ≥ mkRat 1 2 ∨
          3 ≤ (occurrences.map Occ.severity).count "High") ∧
        ¬(ratioOf occurrences.length total ≥ mkRat 1 4 ∨
          2 ≤ (occurrences.map Occ.severity).count "Medium")) := by
  unfold GapDetector.calculate_priority GapAnalysisEngine.calculate_priority
  refine ⟨?_, ?_, ?_, ?_, ?_, ?_⟩ <;> (split_ifs with ha hb <;> simp_all)

/-- C4 witness: at occurrence ratio exactly two fifths, the detector
formula gives High, in contrast with the engine thresholds. -/
theorem c4_witness :
    GapDetector.calculate_priority
      [{ category := "General", severity := "Low" },
       { category := "General", severity := "Low" }] 5 = "High" :=
  (c4_priority_formulas _ 5).1.mpr (Or.inl (by decide))

/-- C5 counterexample: a non-empty corpus in which no canonical gap
reaches the systemic threshold still yields a non-empty report from
GapDetector.detect_gaps, contradicting the claimed empty case. -/
theorem c5_counterexample : ¬ GapDetector.detect_gaps corpusSingletonFailure 3 = [] := by
  decide

/-- C5 amended: both aggregators return at most top_n rows and the empty
report on the empty corpus; GapAnalysisEngine.run additionally returns
the empty report when no normalized gap reaches two occurrences, while
GapDetector.detect_gaps has no systemic threshold. -/
theorem c5_report_bounds :
    (∀ (env : ℕ → String) (articles : List Article) (top_n : ℕ),
        (GapAnalysisEngine.run env articles top_n).length ≤ top_n) ∧
    (∀ (articles : List Article) (top_n : ℕ),
        (GapDetector.detect_gaps articles top_n).length ≤ top_n) ∧
    (∀ (env : ℕ → String) (top_n : ℕ), GapAnalysisEngine.run env [] top_n = []) ∧
    (∀ top_n : ℕ, GapDetector.detect_gaps [] top_n = []) ∧
    (∀ (env : ℕ → String) (articles : List Article) (top_n : ℕ),
        (∀ g, countOcc g (GapAnalysisEngine.engineOccs articles) ≤ 1) →
        GapAnalysisEngine.run env articles top_n = []) := by
  refine ⟨?_, ?_, ?_, ?_, ?_⟩
  · intro env articles top_n
    unfold GapAnalysisEngine.run
    split_ifs
    · simp
    · simp
    · simp
    · rw [engineRows_length, List.length_take]
      exact min_le_left _ _
  · intro articles top_n
    unfold GapDetector.detect_gaps
    split_ifs
    · simp
    · rw [detectorRows_length, List.length_take]
      exact min_le_left _ _
  · intro env top_n
    rfl
  · intro top_n
    rfl
  · intro env articles top_n hcount
    have hsys : GapAnalysisEngine.systemic_gaps articles = [] := by
      unfold GapAnalysisEngine.systemic_gaps
      rw [List.filter_eq_nil_iff]
      rintro ⟨k, os⟩ hmem
      have hmem2 : (k, os) ∈ buildMap (GapAnalysisEngine.engineOccs articles) := hmem
      obtain ⟨hkeys, hos⟩ := mem_buildMap.mp hmem2
      simp only [decide_eq_true_eq]
      intro h2
      have hco := hcount k
      unfold countOcc at hco
      rw [hos, List.length_map] at h2
      omega
    unfold GapAnalysisEngine.run
    rw [hsys]
    split_ifs with h1 h2 h3
    · rfl
    · rfl
    · rfl
    · exact absurd rfl h3

/-- C5 witness: the report bound and empty-case parts of the amended
claim applied at concrete inputs, including a corpus whose only gap has
a single occurrence. -/
theorem c5_witness :
    GapAnalysisEngine.run envFail corpusSingletonRole 5 = [] :=
  c5_report_bounds.2.2.2.2 envFail corpusSingletonRole 5
    (fun _ => le_trans (List.length_filter_le _ _) (by decide))

/-- Monotonicity of the shared two-threshold priority chain in the
ratio and the two severity counts. -/
theorem priority_step_mono (hi lo r1 r2 : ℚ) (c1h c1m c2h c2m : ℕ)
    (hr : r1 ≤ r2) (hh : c1h ≤ c2h) (hm : c1m ≤ c2m) :
    priorityRank (if r1 ≥ hi ∨ 3 ≤ c1h then "High"
      else if r1 ≥ lo ∨ 2 ≤ c1m then "Medium" else "Low") ≤
    priorityRank (if r2 ≥ hi ∨ 3 ≤ c2h then "High"
      else if r2 ≥ lo ∨ 2 ≤ c2m then "Medium" else "Low") := by
  by_cases hA1 : r1 ≥ hi ∨ 3 ≤ c1h
  · have hA2 : r2 ≥ hi ∨ 3 ≤ c2h :=
      hA1.imp (fun h => le_trans h hr) (fun h => le_trans h hh)
    rw [if_pos hA1, if_pos hA2]
  · rw [if_neg hA1]
    by_cases hB1 : r1 ≥ lo ∨ 2 ≤ c1m
    · have hB2 : r2 ≥ lo ∨ 2 ≤ c2m :=
        hB1.imp (fun h => le_trans h hr) (fun h => le_trans h hm)
      rw [if_pos hB1]
      by_cases hA2 : r2 ≥ hi ∨ 3 ≤ c2h
      · rw [if_pos hA2]
        decide
      · rw [if_neg hA2, if_pos hB2]
    · rw [if_neg hB1]
      calc priorityRank "Low" = 0 := by decide
        _ ≤ _ := Nat.zero_le _

/-- C6: for a fixed corpus size, growing the occurrence list of a bucket
while keeping the existing occurrences never lowers the priority tier,
in either priority variant. -/
theorem c6_priority_monotone (o1 o2 : List Occ) (total : ℕ) (h : o1.Sublist o2) :
    priorityRank (GapDetector.calculate_priority o1 total) ≤
      priorityRank (GapDetector.calculate_priority o2 total) ∧
    priorityRank (GapAnalysisEngine.calculate_priority o1 total) ≤
      priorityRank (GapAnalysisEngine.calculate_priority o2 total) := by
  have hr : ratioOf o1.length total ≤ ratioOf o2.length total := by
    unfold ratioOf
    rw [Rat.mkRat_eq_div, Rat.mkRat_eq_div]
    exact div_le_div_of_nonneg_right (by exact_mod_cast h.length_le) (by positivity)
  have hh : (o1.map Occ.severity).count "High" ≤ (o2.map Occ.severity).count "High" :=
    (h.map Occ.severity).count_le "High"
  have hm : (o1.map Occ.severity).count "Medium" ≤ (o2.map Occ.severity).count "Medium" :=
    (h.map Occ.severity).count_le "Medium"
  exact ⟨priority_step_mono _ _ _ _ _ _ _ _ hr hh hm,
    priority_step_mono _ _ _ _ _ _ _ _ hr hh hm⟩

/-- C6 witness: adding a second occurrence to a singleton bucket in a
five article corpus does not lower either priority tier. -/
theorem c6_witness :
    priorityRank (GapDetector.calculate_priority
        [{ category := "G", severity := "High" }] 5) ≤
      priorityRank (GapDetector.calculate_priority
        [{ category := "G", severity := "High" },
         { category := "G", severity := "Low" }] 5) ∧
    priorityRank (GapAnalysisEngine.calculate_priority
        [{ category := "G", severity := "High" }] 5) ≤
      priorityRank (GapAnalysisEngine.calculate_priority
        [{ category := "G", severity := "High" },
         { category := "G", severity := "Low" }] 5) :=
  c6_priority_monotone _ _ 5
    (List.Sublist.cons₂ _ (List.nil_sublist _))

/-- C7: the engine rationale is never empty and always between 15 and
160 characters, whatever the generative call returned; on a failed call,
an empty result, or a stripped result outside the bounds it is exactly
the deterministic baseline; and the detector rationale is never
empty. -/
theorem c7_rationale_bounds :
    (∀ geminiResult category gap _priority,
      ¬ GapAnalysisEngine.generate_rationale geminiResult category gap _priority = "" ∧
      15 ≤ (GapAnalysisEngine.generate_rationale geminiResult category gap _priority).length ∧
      (GapAnalysisEngine.generate_rationale geminiResult category gap _priority).length ≤ 160) ∧
    (∀ geminiResult category gap _priority,
      geminiResult = "" ∨ (pyStrip geminiResult).length < 15 ∨
        160 < (pyStrip geminiResult).length →
      GapAnalysisEngine.generate_rationale geminiResult category gap _priority =
        GapAnalysisEngine.baseline_rationale category gap) ∧
    (∀ gap_desc category freq total,
      ¬ GapDetector.build_rationale gap_desc category freq total = "") := by
  refine ⟨?_, ?_, ?_⟩
  · intro geminiResult category gap _priority
    simp only [GapAnalysisEngine.generate_rationale]
    split_ifs with h1 h2
    · exact baseline_rationale_bounds category gap
    · exact baseline_rationale_bounds category gap
    · push_neg at h2
      refine ⟨?_, h2.1, h2.2⟩
      intro he
      rw [he] at h2
      revert h2
      decide
  · intro geminiResult category gap _priority hbad
    simp only [GapAnalysisEngine.generate_rationale]
    split_ifs with h1 h2
    · rfl
    · rfl
    · push_neg at h2
      rcases hbad with he | hlt | hgt
      · exact absurd he h1
      · omega
      · omega
  · intro gap_desc category freq total
    unfold GapDetector.build_rationale
    split_ifs
    · decide
    · decide
    · decide
    · decide
    · intro he
      have hlen := congrArg String.length he
      rw [String.length_append, String.length_append, String.length_append,
        String.length_append] at hlen
      have h1 : ("This gap appears in ").length = 20 := by decide
      have h0 : ("" : String).length = 0 := rfl
      rw [h1, h0] at hlen
      omega

/-- C7 witness: the bounds, the fallback equation on a failed call, and
the detector non-emptiness applied at concrete inputs. -/
theorem c7_witness :
    (¬ GapAnalysisEngine.generate_rationale "" "API" "g" "High" = "" ∧
      15 ≤ (GapAnalysisEngine.generate_rationale "" "API" "g" "High").length ∧
      (GapAnalysisEngine.generate_rationale "" "API" "g" "High").length ≤ 160) ∧
    GapAnalysisEngine.generate_rationale "" "API" "g" "High" =
      GapAnalysisEngine.baseline_rationale "API" "g" ∧
    ¬ GapDetector.build_rationale "Missing Role & Access Requirements" "API" 3 5 = "" :=
  ⟨c7_rationale_bounds.1 "" "API" "g" "High",
   c7_rationale_bounds.2.1 "" "API" "g" "High" (Or.inl rfl),
   c7_rationale_bounds.2.2 "Missing Role & Access Requirements" "API" 3 5⟩

/-- C8: evaluation of the inference boundary. A zero-shot call whose
outcome is an exception is caught and structuring succeeds, but a call
that returns a malformed non-dict value makes the attribute lookup of
get raise AttributeError, which propagates out of structure_article,
contradicting the never-raises guarantee of the claim and of the client
docstring. -/
theorem c8_malformed_inference_raises :
    ArticleJSONStructurer.structure_article (Except.ok PyVal.other) rawAboutThings =
      Except.error PyError.attributeError ∧
    ArticleJSONStructurer.structure_article (Except.error ()) rawShortGuide =
      Except.ok structuredShortGuide := by decide

/-- C9 counterexample: the same corpus aggregated under two different
generative outcomes, both runs completing, produces different report
rows, so re-running aggregation on an unchanged corpus need not be
byte-identical. -/
theorem c9_counterexample :
    ¬ GapAnalysisEngine.run envOk corpusCanonicalRole 5 =
      GapAnalysisEngine.run envFail corpusCanonicalRole 5 := by decide

/-- C9 amended: GapDetector.detect_gaps is a pure function of the corpus
alone, and GapAnalysisEngine.run produces identical rows across runs
whenever the generative outcomes coincide, in particular whenever the
assist fails in both runs and every rationale falls back to the
deterministic baseline. -/
theorem c9_rerun_identical (env1 env2 : ℕ → String) (articles : List Article)
    (top_n : ℕ) (h1 : ∀ i, env1 i = "") (h2 : ∀ i, env2 i = "") :
    GapAnalysisEngine.run env1 articles top_n =
      GapAnalysisEngine.run env2 articles top_n := by
  unfold GapAnalysisEngine.run
  split_ifs
  · rfl
  · rfl
  · rfl
  · exact engineRows_env_congr env1 env2 articles.length
      (fun i => (h1 i).trans (h2 i).symm) 1 _

/-- C9 witness: two runs with failing generative calls on the same
corpus produce the same rows. -/
theorem c9_witness :
    GapAnalysisEngine.run envFail corpusCanonicalRole 5 =
      GapAnalysisEngine.run (fun _ => "") corpusCanonicalRole 5 :=
  c9_rerun_identical envFail (fun _ => "") corpusCanonicalRole 5
    (fun _ => rfl) (fun _ => rfl)

/-- C10: a gap phrase containing none of the rule keywords is
canonicalized by the structurer to its own lower-cased stripped form,
and therefore appears verbatim in the gaps_identified list built from
any raw gap list containing it. -/
theorem c10_unmatched_gap_verbatim (p : String)
    (h : ∀ k ∈ ArticleJSONStructurer.STRUCT_KEYWORDS,
      pyIn k (pyStrip (pyLower p)) = false) :
    ArticleJSONStructurer.canonicalize_gap p = pyStrip (pyLower p) ∧
    ∀ raw_gaps : List String, p ∈ raw_gaps →
      pyStrip (pyLower p) ∈ ArticleJSONStructurer.structured_gaps raw_gaps := by
  refine ⟨canonicalize_gap_unmatched p h, ?_⟩
  intro raw_gaps hmem
  unfold ArticleJSONStructurer.structured_gaps
  rw [← canonicalize_gap_unmatched p h]
  exact mem_firstSeen.mpr (List.mem_map_of_mem _ hmem)

/-- C10 witness: a phrase with no rule keyword survives canonicalization
verbatim and appears in the structured gap list. -/
theorem c10_witness :
    ArticleJSONStructurer.canonicalize_gap "screenshots are outdated" =
      "screenshots are outdated" ∧
    "screenshots are outdated" ∈
      ArticleJSONStructurer.structured_gaps ["screenshots are outdated"] :=
  ⟨(c10_unmatched_gap_verbatim "screenshots are outdated" (by decide)).1,
   (c10_unmatched_gap_verbatim "screenshots are outdated" (by decide)).2
     ["screenshots are outdated"] (by decide)⟩

end ZipboardAudit
